import Mathlib

/-!
Shallow embedding of `src/timeframe/timeframe.py`: a hierarchical
operation-tracking library (root `TimeFrame` → `Event` → `Action` →
`Attempt`) with a monotone status state machine, a retry-iteration
protocol, an optional root hook, and depth-capped rendering.

Time is modelled as a natural number of milliseconds supplied explicitly
wherever the Python code samples `time.perf_counter()`.  The hook callback
is modelled by its observable effect: an invocation counter on the root.
Exception types are modelled by an identifier plus an ancestor-id list
(for `issubclass`).  `traceback.format_exception` is modelled as an
opaque nonempty string.
-/

namespace Timeframe

/-- The `State` enum of the source: six severity-ordered statuses. -/
inductive State where
  | FUTURE
  | LOADING
  | SUCCESS
  | ISSUE
  | FAILED
  | FATAL
deriving DecidableEq, Repr

/-- The numeric enum values from the source (`0x4000` … `0xffff`). -/
def State.val : State → Nat
  | .FUTURE => 0x4000
  | .LOADING => 0x8000
  | .SUCCESS => 0xb000
  | .ISSUE => 0xf000
  | .FAILED => 0xfff0
  | .FATAL => 0xffff

/-- `State.name` of the Python enum member. -/
def State.pyName : State → String
  | .FUTURE => "FUTURE"
  | .LOADING => "LOADING"
  | .SUCCESS => "SUCCESS"
  | .ISSUE => "ISSUE"
  | .FAILED => "FAILED"
  | .FATAL => "FATAL"

/-- The `Emoji` enum value associated to each state (via `Emoji.translate`). -/
def stateEmoji : State → String
  | .SUCCESS => "✅"
  | .FUTURE => "🟨"
  | .LOADING => "⏳"
  | .ISSUE => "⚠️"
  | .FAILED => "❌"
  | .FATAL => "🛑"

/-- The `BaseFrame.state` property setter: assigning a state whose value is
lower than or equal to the current one is a no-op; otherwise the state is
replaced.  Every state mutation in the source goes through this setter. -/
def stateSet (cur new : State) : State :=
  if new.val ≤ cur.val then cur else new

/-- An exception type: identity `id`, the ids of all its ancestor classes
(including itself, since `issubclass` is reflexive), `__name__`, and
`__module__` (with `"builtins"` standing for the builtin module). -/
structure ExcType where
  id : Nat
  ancestors : List Nat
  name : String
  module : String
deriving DecidableEq, Repr

/-- `get_exc_src`: module-qualified prefix, empty for builtins. -/
def excSrc (e : ExcType) : String :=
  if e.module = "builtins" then "" else e.module ++ "."

/-- The ignore-set test of `Attempt.__exit__`:
`exc_type in ignore_retries or (check_exc_subclass and issubclass(exc_type, tuple(ignore_retries)))`. -/
def excMatches (ignoreRetries : List ExcType) (checkExcSubclass : Bool) (e : ExcType) : Bool :=
  ignoreRetries.any (fun t => t.id == e.id) ||
    (checkExcSubclass && ignoreRetries.any (fun t => List.contains e.ancestors t.id))

/-- An exception value crossing a scope boundary: a user error, or one of
the retry-loop control signals `IterationCompleted` / `IterationFailed`. -/
inductive ExcVal where
  | user (e : ExcType)
  | iterCompleted
  | iterFailed
deriving DecidableEq, Repr

/-- Models the text `'\n'.join(traceback.format_exception(...))` produces for
the given exception: opaque content, always nonempty. -/
def pyTraceback : ExcVal → String
  | .user e => "Traceback (most recent call last): " ++ e.name
  | .iterCompleted => "Traceback (most recent call last): IterationCompleted"
  | .iterFailed => "Traceback (most recent call last): IterationFailed"

/-- The annotation appended by `Attempt.__exit__` on an ignore-set match. -/
def ignoreMsg (e : ExcType) : String :=
  "Ignore retries by exception: " ++ excSrc e ++ e.name

/-- One retry trial (`class Attempt`).  `rtCompleted` is the per-attempt
hook-guard flag `_rt_completed`; `addString` is `_add_string`. -/
structure Attempt where
  name : Option String
  startT : Option Nat
  endT : Option Nat
  state : State
  addString : String
  rtCompleted : Bool
deriving DecidableEq, Repr

/-- A retryable unit (`class Action`) owning its attempts. -/
structure Action where
  name : Option String
  startT : Option Nat
  endT : Option Nat
  state : State
  frames : List Attempt
  retries : Nat
  currRetries : Nat
  ignoreRetries : List ExcType
  checkExcSubclass : Bool
deriving DecidableEq, Repr

/-- A grouping of actions (`class Event`). -/
structure Event where
  name : Option String
  startT : Option Nat
  endT : Option Nat
  state : State
  frames : List Action
deriving DecidableEq, Repr

/-- The root (`class TimeFrame`).  `rtSome` records whether a hook callback
was configured (`_rt[0] is not None`); `rtCompleted` is the root's own
`_rt_completed`; `hookCount` counts hook invocations (the observable
effect of `_trigger_sync` / `_trigger_async`); `tb` is the traceback log. -/
structure TimeFrame where
  name : Option String
  startT : Option Nat
  endT : Option Nat
  state : State
  frames : List Event
  tb : List String
  rtSome : Bool
  rtCompleted : Bool
  hookCount : Nat
deriving DecidableEq, Repr

/-- `TimeFrame.__init__`. -/
def mkTimeFrame (name : Option String) (rtSome : Bool) : TimeFrame :=
  { name := name, startT := none, endT := none, state := .FUTURE,
    frames := [], tb := [], rtSome := rtSome, rtCompleted := false, hookCount := 0 }

/-- `Event.__init__`. -/
def mkEvent (name : Option String) : Event :=
  { name := name, startT := none, endT := none, state := .FUTURE, frames := [] }

/-- `Action.__init__` (note `ignore_retries or ()` collapses `None` to empty,
modelled by the caller passing a plain list). -/
def mkAction (name : Option String) (retries : Nat) (ignoreRetries : List ExcType)
    (checkExcSubclass : Bool) : Action :=
  { name := name, startT := none, endT := none, state := .FUTURE, frames := [],
    retries := retries, currRetries := 0, ignoreRetries := ignoreRetries,
    checkExcSubclass := checkExcSubclass }

/-- `Attempt.__init__`: named after the owner's current retry counter. -/
def mkAttempt (parentCurrRetries : Nat) : Attempt :=
  { name := some ("Attempt #" ++ toString (parentCurrRetries + 1)), startT := none,
    endT := none, state := .FUTURE, addString := "", rtCompleted := false }

/-- The tail of `BaseFrame.end`: set `SUCCESS` unless already
`ISSUE`/`FAILED`/`FATAL`. -/
def endStateNoChild (s : State) : State :=
  if s = .ISSUE ∨ s = .FAILED ∨ s = .FATAL then s else stateSet s .SUCCESS

/-- The `for … else` scan of `BaseFrame.end`: true when every child state is
`FAILED` or `FATAL`. -/
def allFailedFatal (cs : List State) : Bool :=
  cs.all (fun c => c == State.FAILED || c == State.FATAL)

/-- The container branch of `BaseFrame.end`: with at least one child all of
whose states are `FAILED`/`FATAL`, assign `FAILED` (through the setter),
then apply the `SUCCESS` fallback. -/
def endAgg (cs : List State) (s : State) : State :=
  endStateNoChild (if !cs.isEmpty && allFailedFatal cs then stateSet s .FAILED else s)

/-- The state part of `BaseFrame.failed`: unless already `FATAL`/`FAILED`,
assign `FAILED` (or `ISSUE` when flagged) through the setter. -/
def failedState (s : State) (isIssue : Bool) : State :=
  if s = .FATAL ∨ s = .FAILED then s
  else stateSet s (if isIssue then .ISSUE else .FAILED)

/-- In-place update of one list element (Python mutates the object held at
an index of `_frames`). -/
def modN (l : List α) (i : Nat) (f : α → α) : List α :=
  match l, i with
  | [], _ => []
  | x :: xs, 0 => f x :: xs
  | x :: xs, n + 1 => x :: modN xs n f

def getEvent (tf : TimeFrame) (i : Nat) : Option Event := tf.frames[i]?

def getAction (tf : TimeFrame) (i j : Nat) : Option Action :=
  (tf.frames[i]?).bind (fun e => e.frames[j]?)

def getAttempt (tf : TimeFrame) (i j k : Nat) : Option Attempt :=
  (getAction tf i j).bind (fun a => a.frames[k]?)

def setEvent (tf : TimeFrame) (i : Nat) (f : Event → Event) : TimeFrame :=
  { tf with frames := modN tf.frames i f }

def setAction (tf : TimeFrame) (i j : Nat) (f : Action → Action) : TimeFrame :=
  setEvent tf i (fun e => { e with frames := modN e.frames j f })

def setAttempt (tf : TimeFrame) (i j k : Nat) (f : Attempt → Attempt) : TimeFrame :=
  setAction tf i j (fun a => { a with frames := modN a.frames k f })

/-- f-string rendering of a `None`-able name. -/
def nameStr : Option String → String
  | none => "None"
  | some s => s

/-- Left-pad with `'0'` to the given width. -/
def padZeros (s : String) (w : Nat) : String :=
  String.mk (List.replicate (w - s.length) '0') ++ s

/-- The `{:08.3f}` formatting of a time value, with time carried in
milliseconds: seconds with three decimals, zero-padded to width 8. -/
def fmtTime (ms : Nat) : String :=
  padZeros (toString (ms / 1000) ++ "." ++ padZeros (toString (ms % 1000)) 3) 8

/-- The `added_string1` built by `BaseFrame.failed` for child frames:
`from parent '<parent>' at TimeFrame '<main>'`. -/
def added1Child (parentName mainName : Option String) : String :=
  "from parent \x27" ++ nameStr parentName ++ "\x27 at TimeFrame \x27" ++
    nameStr mainName ++ "\x27"

/-- One record of the root's traceback log, as formatted by
`BaseFrame.failed`. -/
def tbEntry (t : Nat) (cls : String) (name : Option String) (added1 : String)
    (st : State) (tbText : String) : String :=
  "[" ++ fmtTime t ++ "s] Error raised on " ++ cls ++ " \x27" ++ nameStr name ++
    "\x27 " ++ added1 ++ " with State " ++ st.pyName ++ ":\n" ++ tbText

/-- Result of a scope exit: a return value (`suppress`: whether the Python
`__exit__` returned a truthy value, suppressing the error), or an exception
raised from inside the exit handler itself. -/
inductive ExitOutcome where
  | ret (suppress : Bool)
  | raised (e : ExcVal)
deriving DecidableEq, Repr

/-- `TimeFrame._trigger_sync`: invokes the hook when one is configured
(observable effect: the invocation counter). -/
def triggerSync (tf : TimeFrame) : TimeFrame :=
  if tf.rtSome then { tf with hookCount := tf.hookCount + 1 } else tf

/-- `TimeFrame._trigger_async`: same observable effect as the sync variant. -/
def triggerAsync (tf : TimeFrame) : TimeFrame :=
  if tf.rtSome then { tf with hookCount := tf.hookCount + 1 } else tf

/-- `BaseFrame.__enter__` on the root: `start()`. -/
def tfEnter (tf : TimeFrame) (t : Nat) : TimeFrame :=
  { tf with startT := some t, state := stateSet tf.state .LOADING }

/-- `BaseFrame.__enter__` on an event. -/
def eventEnterAt (tf : TimeFrame) (i t : Nat) : TimeFrame :=
  setEvent tf i (fun e => { e with startT := some t, state := stateSet e.state .LOADING })

/-- `BaseFrame.__enter__` on an action. -/
def actionEnterAt (tf : TimeFrame) (i j t : Nat) : TimeFrame :=
  setAction tf i j (fun a => { a with startT := some t, state := stateSet a.state .LOADING })

/-- `Attempt.__enter__`: when the attempt's own `_rt_completed` flag is
unset, invoke the root hook and set the flag; then `start()`. -/
def attemptEnterAt (tf : TimeFrame) (i j k t : Nat) : TimeFrame :=
  match getAttempt tf i j k with
  | none => tf
  | some att =>
    let tf1 := if att.rtCompleted then tf else triggerSync tf
    setAttempt tf1 i j k (fun a =>
      { a with rtCompleted := true, startT := some t, state := stateSet a.state .LOADING })

/-- `TimeFrame.create`: append a fresh `Event`. -/
def tfCreate (tf : TimeFrame) (name : Option String) : TimeFrame :=
  { tf with frames := tf.frames ++ [mkEvent name] }

/-- `Event.create`: append a fresh `Action`.  The source constructs the
`Action` without passing `check_exc_subclass`, so the flag is always the
constructor default `False`. -/
def eventCreate (e : Event) (name : Option String) (retries : Nat)
    (ignoreRetries : List ExcType) : Event :=
  { e with frames := e.frames ++ [mkAction name retries ignoreRetries false] }

def eventCreateAt (tf : TimeFrame) (i : Nat) (name : Option String) (retries : Nat)
    (ignoreRetries : List ExcType) : TimeFrame :=
  setEvent tf i (fun e => eventCreate e name retries ignoreRetries)

/-- `Action.create`: append a fresh `Attempt` and bump `_curr_retries`. -/
def actionCreate (a : Action) : Action :=
  { a with frames := a.frames ++ [mkAttempt a.currRetries],
           currRetries := a.currRetries + 1 }

/-- `Action.__next__`: stop when the budget is used up; else force a
still-`LOADING` previous attempt to `SUCCESS` (through the setter); stop
when the previous attempt is `SUCCESS`; else produce a new attempt.
Returns the updated action and the index of the produced attempt
(`none` models `StopIteration`). -/
def actionNext (a : Action) : Action × Option Nat :=
  if a.retries ≤ a.currRetries then (a, none)
  else
    match a.frames.getLast? with
    | none => (actionCreate a, some a.frames.length)
    | some last =>
      let last1 := if last.state = .LOADING
        then { last with state := stateSet last.state .SUCCESS } else last
      let a1 := { a with frames := a.frames.dropLast ++ [last1] }
      if last1.state = .SUCCESS then (a1, none)
      else (actionCreate a1, some a1.frames.length)

def actionNextAt (tf : TimeFrame) (i j : Nat) : TimeFrame × Option Nat :=
  match getAction tf i j with
  | none => (tf, none)
  | some a =>
    let r := actionNext a
    (setAction tf i j (fun _ => r.1), r.2)

/-- Update the attempt at index `k` of an action. -/
def withAttemptK (a : Action) (k : Nat) (f : Attempt → Attempt) : Action :=
  { a with frames := modN a.frames k f }

/-- `BaseFrame.end` as run on an `Attempt` (no `_frames` attribute). -/
def attemptEndK (a : Action) (k t : Nat) : Action :=
  withAttemptK a k (fun x => { x with endT := some t, state := endStateNoChild x.state })

/-- `BaseFrame.failed` as run on an `Attempt`: record end time, assign
`FAILED`; unless the resulting state is `ISSUE`, set the owning action to
`ISSUE` and append the formatted record to the root traceback log (returned
as the list of new entries). -/
def attemptFailedK (a : Action) (k : Nat) (mainName : Option String) (t : Nat)
    (tbText : String) : Action × List String :=
  match a.frames[k]? with
  | none => (a, [])
  | some att =>
    let s1 := failedState att.state false
    let a1 := withAttemptK a k (fun x => { x with endT := some t, state := s1 })
    if s1 = .ISSUE then (a1, [])
    else
      let a2 := { a1 with state := stateSet a1.state .ISSUE }
      if tbText = "" then (a2, [])
      else (a2, [tbEntry t "Attempt" att.name (added1Child a.name mainName) s1 tbText])

/-- `BaseFrame.__exit__` as run on an `Attempt`: end or fail, then raise
`IterationCompleted` when the attempt did not fail, raise `IterationFailed`
when the budget is spent, else return `True`. -/
def attemptBaseExitK (a : Action) (k : Nat) (mainName : Option String) (t : Nat)
    (exc : Option ExcVal) : Action × List String × ExitOutcome :=
  let r : Action × List String := match exc with
    | none => (attemptEndK a k t, [])
    | some .iterCompleted => (attemptEndK a k t, [])
    | some v => attemptFailedK a k mainName t (pyTraceback v)
  let a1 := r.1
  match a1.frames[k]? with
  | none => (a1, r.2, .ret true)
  | some att1 =>
    if att1.state ≠ .FAILED ∧ att1.state ≠ .FATAL then (a1, r.2, .raised .iterCompleted)
    else if a1.retries ≤ a1.currRetries then (a1, r.2, .raised .iterFailed)
    else (a1, r.2, .ret true)

/-- `Attempt.__exit__`: on an ignore-set match, set `FATAL` (through the
setter), append the annotation, run the base exit logic, and — unless that
raised — return `False` (the error is not suppressed). -/
def attemptExitCore (a : Action) (k : Nat) (mainName : Option String) (t : Nat)
    (exc : Option ExcType) : Action × List String × ExitOutcome :=
  match exc with
  | none => attemptBaseExitK a k mainName t none
  | some e =>
    if excMatches a.ignoreRetries a.checkExcSubclass e then
      let a1 := withAttemptK a k (fun att =>
        { att with state := stateSet att.state .FATAL,
                   addString := att.addString ++ ignoreMsg e })
      let r := attemptBaseExitK a1 k mainName t (some (.user e))
      match r.2.2 with
      | .raised v => (r.1, r.2.1, .raised v)
      | .ret _ => (r.1, r.2.1, .ret false)
    else attemptBaseExitK a k mainName t (some (.user e))

def attemptExitAt (tf : TimeFrame) (i j k t : Nat) (exc : Option ExcType) :
    TimeFrame × ExitOutcome :=
  match getAction tf i j with
  | none => (tf, .ret true)
  | some a =>
    let r := attemptExitCore a k tf.name t exc
    ({ setAction tf i j (fun _ => r.1) with tb := tf.tb ++ r.2.1 }, r.2.2)

/-- Update the action at index `j` of an event. -/
def withActionJ (e : Event) (j : Nat) (f : Action → Action) : Event :=
  { e with frames := modN e.frames j f }

/-- `BaseFrame.end` as run on an `Action` (container aggregation). -/
def actionEndK (e : Event) (j t : Nat) : Event :=
  withActionJ e j (fun a =>
    { a with endT := some t, state := endAgg (a.frames.map (fun x => x.state)) a.state })

/-- `BaseFrame.failed` as run on an `Action`: propagate `FAILED` to the
owning event and append a traceback record. -/
def actionFailedK (e : Event) (j : Nat) (mainName : Option String) (t : Nat)
    (tbText : String) : Event × List String :=
  match e.frames[j]? with
  | none => (e, [])
  | some a =>
    let s1 := failedState a.state false
    let e1 := withActionJ e j (fun x => { x with endT := some t, state := s1 })
    if s1 = .ISSUE then (e1, [])
    else
      let e2 := { e1 with state := stateSet e1.state .FAILED }
      if tbText = "" then (e2, [])
      else (e2, [tbEntry t "Action" a.name (added1Child e.name mainName) s1 tbText])

/-- `BaseFrame.__exit__` as run on an `Action` (always suppresses). -/
def actionExitCore (e : Event) (j : Nat) (mainName : Option String) (t : Nat)
    (exc : Option ExcVal) : Event × List String :=
  match exc with
  | none => (actionEndK e j t, [])
  | some .iterCompleted => (actionEndK e j t, [])
  | some v => actionFailedK e j mainName t (pyTraceback v)

def actionExitAt (tf : TimeFrame) (i j t : Nat) (exc : Option ExcVal) :
    TimeFrame × ExitOutcome :=
  match tf.frames[i]? with
  | none => (tf, .ret true)
  | some e =>
    let r := actionExitCore e j tf.name t exc
    ({ setEvent tf i (fun _ => r.1) with tb := tf.tb ++ r.2 }, .ret true)

/-- `BaseFrame.end` as run on an `Event`. -/
def eventEndAt (tf : TimeFrame) (i t : Nat) : TimeFrame :=
  setEvent tf i (fun e =>
    { e with endT := some t, state := endAgg (e.frames.map (fun a => a.state)) e.state })

/-- `BaseFrame.failed` as run on an `Event`: propagate `FAILED` to the root
and append a traceback record (an event's parent is the root itself). -/
def eventFailedAt (tf : TimeFrame) (i t : Nat) (tbText : String) : TimeFrame :=
  match tf.frames[i]? with
  | none => tf
  | some e =>
    let s1 := failedState e.state false
    let tf1 := setEvent tf i (fun x => { x with endT := some t, state := s1 })
    if s1 = .ISSUE then tf1
    else
      let tf2 := { tf1 with state := stateSet tf1.state .FAILED }
      if tbText = "" then tf2
      else { tf2 with tb := tf2.tb ++
        [tbEntry t "Event" e.name (added1Child tf.name tf.name) s1 tbText] }

def eventExitAt (tf : TimeFrame) (i t : Nat) (exc : Option ExcVal) :
    TimeFrame × ExitOutcome :=
  match exc with
  | none => (eventEndAt tf i t, .ret true)
  | some .iterCompleted => (eventEndAt tf i t, .ret true)
  | some v => (eventFailedAt tf i t (pyTraceback v), .ret true)

/-- `BaseFrame.end` on the root. -/
def tfEndCtx (tf : TimeFrame) (t : Nat) : TimeFrame :=
  { tf with endT := some t, state := endAgg (tf.frames.map (fun e => e.state)) tf.state }

/-- `BaseFrame.failed` on the root: no upward propagation; the record is
appended to the root's own log. -/
def tfFailedCtx (tf : TimeFrame) (t : Nat) (tbText : String) : TimeFrame :=
  let s1 := failedState tf.state false
  let tf1 := { tf with endT := some t, state := s1 }
  if s1 = .ISSUE then tf1
  else if tbText = "" then tf1
  else { tf1 with tb := tf1.tb ++
    [tbEntry t "TimeFrame" tf.name ("at TimeFrame \x27" ++ nameStr tf.name ++ "\x27") s1 tbText] }

/-- `TimeFrame.__exit__`: when the root's `_rt_completed` flag is unset,
invoke the hook and set it; then the base exit logic. -/
def tfExitAt (tf : TimeFrame) (t : Nat) (exc : Option ExcVal) :
    TimeFrame × ExitOutcome :=
  let tf0 := if tf.rtCompleted then tf else { triggerSync tf with rtCompleted := true }
  match exc with
  | none => (tfEndCtx tf0 t, .ret true)
  | some .iterCompleted => (tfEndCtx tf0 t, .ret true)
  | some v => (tfFailedCtx tf0 t (pyTraceback v), .ret true)

/-- `TimeFrame.__aexit__` as written in the source: it awaits the hook, sets
the flag, and then awaits **itself** with the same arguments — so it never
returns.  Modelled with explicit fuel: `none` means the recursion did not
terminate within the given fuel. -/
def tfAexitFuel : Nat → TimeFrame → Option ExcVal → Nat → Option (TimeFrame × Bool)
  | 0, _, _, _ => none
  | fuel + 1, tf, exc, t =>
    tfAexitFuel fuel { triggerAsync tf with rtCompleted := true } exc t

/-- One step a driver can take on an action between calls of the iteration
protocol: ask for the next attempt, or finish the current (last) attempt's
scope, which writes the attempt's final state through the state setter. -/
inductive DriveStep where
  | stepNext
  | stepSet (s : State)
deriving DecidableEq, Repr

/-- Write a state to the last attempt through the property setter (the only
way attempt scopes mutate an attempt's status). -/
def setLastState (a : Action) (s : State) : Action :=
  match a.frames.getLast? with
  | none => a
  | some last => { a with frames := a.frames.dropLast ++
      [{ last with state := stateSet last.state s }] }

def driveStep : DriveStep → Action → Action
  | .stepNext, a => (actionNext a).1
  | .stepSet s, a => setLastState a s

/-- Drive an action through an arbitrary sequence of protocol steps. -/
def drive (l : List DriveStep) (a : Action) : Action :=
  l.foldl (fun x st => driveStep st x) a

/-- Python truthiness of a stored timestamp (`not self._start` is true for
`None` and for `0.0`). -/
def pyFalsyTime : Option Nat → Bool
  | none => true
  | some v => v == 0

/-- The `duration` property: zero if unstarted, elapsed-so-far if unended,
frozen once ended. -/
def duration (st en : Option Nat) (now : Nat) : Nat :=
  if pyFalsyTime st then 0
  else if pyFalsyTime en then now - st.getD 0
  else en.getD 0 - st.getD 0

/-- `BaseFrame.__repr__`: status symbol, name, and duration — the duration
suffix is omitted when the duration is sub-millisecond and the status is
`LOADING`/`FUTURE`. -/
def reprBase (st : State) (name : Option String) (dur : Nat) : String :=
  stateEmoji st ++ "-" ++ nameStr name ++
    (if dur < 1 ∧ (st = .LOADING ∨ st = .FUTURE) then ""
     else " (" ++ fmtTime dur ++ "s)")

/-- `Attempt.__repr__`: the base representation plus the annotation. -/
def reprAttempt (att : Attempt) (now : Nat) : String :=
  reprBase att.state att.name (duration att.startT att.endT now) ++
    (if att.addString = "" then "" else " (" ++ att.addString ++ ")")

def reprAction (a : Action) (now : Nat) : String :=
  reprBase a.state a.name (duration a.startT a.endT now)

def reprEvent (e : Event) (now : Nat) : String :=
  reprBase e.state e.name (duration e.startT e.endT now)

def reprTF (tf : TimeFrame) (now : Nat) : String :=
  reprBase tf.state tf.name (duration tf.startT tf.endT now)

/-- `BaseFrame.__len__`: 1 for a leaf, else 1 plus the sum over children. -/
def actionLen (a : Action) : Nat := a.frames.length + 1

def eventLen (e : Event) : Nat := (e.frames.map actionLen).sum + 1

def tfLen (tf : TimeFrame) : Nat := (tf.frames.map eventLen).sum + 1

/-- `TimeFrame._init_content`: the report's first line, showing `Current`
while the root is `LOADING`/`FUTURE` and `Total` otherwise. -/
def headerLine (tf : TimeFrame) (now : Nat) : String :=
  let toc := if tf.state = .LOADING ∨ tf.state = .FUTURE then "Current" else "Total"
  toc ++ ": " ++ fmtTime (duration tf.startT tf.endT now) ++ "s (" ++ toc ++
    " Frames: " ++ toString (tfLen tf) ++ ")"

/-- `TimeFrame._check_recur` on an `Action`: stop below an action whose
single attempt already succeeded. -/
def checkRecurAction (a : Action) : Bool :=
  match a.frames with
  | [att] => !(att.state == State.SUCCESS)
  | _ => true

/-- `_get_space_dc`: the per-depth marker scheme of the depth-capped
renderer. -/
def spaceDc (index : Nat) : String :=
  if index = 2 then "> " else if index = 3 then "> - " else ""

/-- `TimeFrame._recur_dc` specialised to an `Attempt` source
(`_check_recur` is false, so recursion always stops here). -/
def recurDcAttempt (att : Attempt) (now index _limit : Nat) : List String :=
  if index ≠ 0 then [spaceDc index ++ reprAttempt att now] else []

def recurDcAction (a : Action) (now index limit : Nat) : List String :=
  (if index ≠ 0 then [spaceDc index ++ reprAction a now] else []) ++
  (if limit < index + 1 ∨ checkRecurAction a = false then []
   else (a.frames.map (fun att => recurDcAttempt att now (index + 1) limit)).flatten)

def recurDcEvent (e : Event) (now index limit : Nat) : List String :=
  (if index ≠ 0 then [spaceDc index ++ reprEvent e now] else []) ++
  (if limit < index + 1 then []
   else (e.frames.map (fun a => recurDcAction a now (index + 1) limit)).flatten)

/-- `TimeFrame._recur_dc` started at the root (index 0: no own line). -/
def recurDcTF (tf : TimeFrame) (now limit : Nat) : List String :=
  if limit < 1 then []
  else (tf.frames.map (fun e => recurDcEvent e now 1 limit)).flatten

/-- `'\n'.join`. -/
def joinLines : List String → String
  | [] => ""
  | [x] => x
  | x :: xs => x ++ "\n" ++ joinLines xs

/-- `TimeFrame._format_dc`: header line plus the depth-capped recursion. -/
def formatDc (tf : TimeFrame) (now limit : Nat) : String :=
  joinLines (headerLine tf now :: recurDcTF tf now limit)

/-- The `for lim in range(3, 0, -1)` loop of `frame_format_dc`. -/
def frameFormatDcLoop (tf : TimeFrame) (now : Nat) : List Nat → Nat → Option String
  | [], _ => none
  | lim :: rest, limit =>
    let formatted := formatDc tf now lim
    if formatted.length ≤ limit then some formatted
    else frameFormatDcLoop tf now rest limit

/-- `TimeFrame.frame_format_dc` (caller-supplied size budget, default 1024
in the source): tries depth caps 3, 2, 1 and returns the first rendering
that fits; `none` models the `False` failure marker. -/
def frameFormatDc (tf : TimeFrame) (now limit : Nat) : Option String :=
  frameFormatDcLoop tf now [3, 2, 1] limit

/-! ### Concrete exception types and scenario runs -/

/-- `builtins.ValueError` (its own id only; ancestry above it plays no role
in the scenarios). -/
def valueError : ExcType :=
  { id := 1, ancestors := [1], name := "ValueError", module := "builtins" }

/-- `builtins.TimeoutError`. -/
def timeoutError : ExcType :=
  { id := 2, ancestors := [2], name := "TimeoutError", module := "builtins" }

/-- The claim-C4 scenario: root `Job` → event `Stage` → action `Call`
(retries = 2), driven through the iteration protocol with both attempts
raising a generic `ValueError`; the exhausted-retry signal then reaches the
action's scope, and the event and root scopes close normally. -/
def runC4 : TimeFrame :=
  let tf := mkTimeFrame (some "Job") false
  let tf := tfEnter tf 1
  let tf := tfCreate tf (some "Stage")
  let tf := eventEnterAt tf 0 2
  let tf := eventCreateAt tf 0 (some "Call") 2 []
  let tf := actionEnterAt tf 0 0 3
  let tf := (actionNextAt tf 0 0).1
  let tf := attemptEnterAt tf 0 0 0 4
  let tf := (attemptExitAt tf 0 0 0 5 (some valueError)).1
  let tf := (actionNextAt tf 0 0).1
  let tf := attemptEnterAt tf 0 0 1 6
  let tf := (attemptExitAt tf 0 0 1 7 (some valueError)).1
  let tf := (actionExitAt tf 0 0 8 (some .iterFailed)).1
  let tf := (eventExitAt tf 0 9 none).1
  (tfExitAt tf 10 none).1

/-- The claim-C1 scenario: a root with a configured hook; one event, one
action (retries = 3); attempt #1 raises a generic error, attempt #2
succeeds (its exit raises the completion signal, consumed by the action's
scope); then all scopes close. -/
def runC1 : TimeFrame :=
  let tf := mkTimeFrame (some "R") true
  let tf := tfEnter tf 1
  let tf := tfCreate tf (some "E")
  let tf := eventEnterAt tf 0 2
  let tf := eventCreateAt tf 0 (some "A") 3 []
  let tf := actionEnterAt tf 0 0 3
  let tf := (actionNextAt tf 0 0).1
  let tf := attemptEnterAt tf 0 0 0 4
  let tf := (attemptExitAt tf 0 0 0 5 (some valueError)).1
  let tf := (actionNextAt tf 0 0).1
  let tf := attemptEnterAt tf 0 0 1 6
  let tf := (attemptExitAt tf 0 0 1 7 none).1
  let tf := (actionExitAt tf 0 0 8 (some .iterCompleted)).1
  let tf := (eventExitAt tf 0 9 none).1
  (tfExitAt tf 10 none).1

/-- The claim-C2 scenario state just before the decisive attempt exit: a
root, one event, one action with `TimeoutError` in its ignore set
(retries = 3), first attempt produced and entered. -/
def runC2pre : TimeFrame :=
  let tf := mkTimeFrame (some "R") false
  let tf := tfEnter tf 1
  let tf := tfCreate tf (some "E")
  let tf := eventEnterAt tf 0 2
  let tf := eventCreateAt tf 0 (some "A") 3 [timeoutError]
  let tf := actionEnterAt tf 0 0 3
  let tf := (actionNextAt tf 0 0).1
  attemptEnterAt tf 0 0 0 4

/-- The decisive step of the claim-C2 scenario: the attempt's scope exits
with a `TimeoutError`, which matches the action's ignore set. -/
def runC2 : TimeFrame × ExitOutcome :=
  attemptExitAt runC2pre 0 0 0 5 (some timeoutError)

/-- The claim-C6 scenario: a root with one event holding two actions; the
first action's single attempt succeeds, the second action's single attempt
fails and exhausts its budget of 1, so the action's failure propagates
`FAILED` to the event before the event's own scope closes. -/
def runC6 : TimeFrame :=
  let tf := mkTimeFrame (some "R") false
  let tf := tfEnter tf 1
  let tf := tfCreate tf (some "E")
  let tf := eventEnterAt tf 0 2
  let tf := eventCreateAt tf 0 (some "A1") 1 []
  let tf := actionEnterAt tf 0 0 3
  let tf := (actionNextAt tf 0 0).1
  let tf := attemptEnterAt tf 0 0 0 4
  let tf := (attemptExitAt tf 0 0 0 5 none).1
  let tf := (actionExitAt tf 0 0 6 (some .iterCompleted)).1
  let tf := eventCreateAt tf 0 (some "A2") 1 []
  let tf := actionEnterAt tf 0 1 7
  let tf := (actionNextAt tf 0 1).1
  let tf := attemptEnterAt tf 0 1 0 8
  let tf := (attemptExitAt tf 0 1 0 9 (some valueError)).1
  let tf := (actionExitAt tf 0 1 10 (some .iterFailed)).1
  let tf := (eventExitAt tf 0 11 none).1
  (tfExitAt tf 12 none).1

/-! ### Helper lemmas -/

theorem modN_getElem? (l : List α) (i : Nat) (f : α → α) :
    (modN l i f)[i]? = (l[i]?).map f := by
  induction l generalizing i with
  | nil => simp [modN]
  | cons x xs ih =>
    cases i with
    | zero => simp [modN]
    | succ n => simpa [modN] using ih n

theorem stateSet_FATAL (s : State) : stateSet s .FATAL = .FATAL := by
  cases s <;> decide

theorem stateSet_le (s x : State) : s.val ≤ (stateSet s x).val := by
  cases s <;> cases x <;> decide

theorem pyTraceback_ne_empty (v : ExcVal) : ¬(pyTraceback v = "") := by
  cases v with
  | user e =>
    intro h
    have hl := congrArg String.length h
    rw [pyTraceback, String.length_append] at hl
    have h1 : ("Traceback (most recent call last): ").length = 35 := rfl
    have h2 : ("" : String).length = 0 := rfl
    rw [h1, h2] at hl
    omega
  | iterCompleted => decide
  | iterFailed => decide

theorem dropLast_append_last (l : List α) (x : α) (h : l.getLast? = some x) :
    l.dropLast ++ [x] = l := by
  have hne : l ≠ [] := by
    intro he
    subst he
    simp at h
  have hx : l.getLast hne = x := by
    have := List.getLast?_eq_getLast l hne
    rw [h] at this
    exact (Option.some_inj.mp this).symm
  rw [← hx]
  exact List.dropLast_concat_getLast hne

theorem length_pos_of_getLast? (l : List α) (x : α) (h : l.getLast? = some x) :
    0 < l.length := by
  cases l with
  | nil => simp at h
  | cons a as => simp

theorem joinLines_head_le (x : String) (xs : List String) :
    x.length ≤ (joinLines (x :: xs)).length := by
  cases xs with
  | nil => simp [joinLines]
  | cons y ys =>
    simp only [joinLines, String.length_append]
    omega

/-! ### Claim theorems -/

/-- C5 (confirmed): for every frame and every sequence of status
transitions through the state setter, the status value never decreases, and
assigning a lower-or-equal status is a no-op. -/
theorem claim5_status_monotone :
    (∀ (l : List State) (s : State), s.val ≤ (l.foldl stateSet s).val) ∧
    (∀ s new : State, new.val ≤ s.val → stateSet s new = s) := by
  constructor
  · intro l
    induction l with
    | nil => intro s; simp
    | cons x xs ih =>
      intro s
      calc s.val ≤ (stateSet s x).val := stateSet_le s x
        _ ≤ ((x :: xs).foldl stateSet s).val := by rw [List.foldl_cons]; exact ih _
  · intro s new h
    simp [stateSet, h]

/-- Witness for C5 at concrete inputs. -/
theorem claim5_status_monotone_witness :
    State.FUTURE.val ≤
      ([State.SUCCESS, State.ISSUE, State.LOADING].foldl stateSet State.FUTURE).val ∧
    stateSet State.FAILED State.SUCCESS = State.FAILED :=
  ⟨claim5_status_monotone.1 _ _, claim5_status_monotone.2 _ _ (by decide)⟩

/-- C3 (code bug): `TimeFrame.__aexit__` awaits itself with unchanged
arguments, so for every amount of fuel the suspension-capable exit of the
root produces no result — it never terminates, and in particular never
reaches `end()`. -/
theorem claim3_tf_aexit_diverges :
    ∀ (fuel : Nat) (tf : TimeFrame) (exc : Option ExcVal) (t : Nat),
      tfAexitFuel fuel tf exc t = none := by
  intro fuel
  induction fuel with
  | zero => intro tf exc t; rfl
  | succ n ih => intro tf exc t; exact ih _ _ _

/-- C9 (counterexample): driving an Action created with retry budget 0
through its iteration protocol produces zero Attempts, not exactly one. -/
theorem claim9_counterexample :
    ¬((drive [DriveStep.stepNext] (mkAction (some "Call") 0 [] false)).frames.length = 1) := by
  decide

/-- C9 (amended): an Action with retry budget 0 produces no Attempt at all
under any drive sequence — iteration stops immediately. -/
theorem claim9_retries_zero_no_attempts :
    ∀ (l : List DriveStep) (a : Action),
      a.retries = 0 → a.frames = [] → a.currRetries = 0 → drive l a = a := by
  intro l
  induction l with
  | nil => intro a _ _ _; rfl
  | cons st rest ih =>
    intro a h0 h1 h2
    have hstep : driveStep st a = a := by
      cases st with
      | stepNext => simp [driveStep, actionNext, h0, h2]
      | stepSet s => simp [driveStep, setLastState, h1]
    show drive rest (driveStep st a) = a
    rw [hstep]
    exact ih a h0 h1 h2

/-- Witness for the amended C9 at a concrete input. -/
theorem claim9_retries_zero_no_attempts_witness :
    drive [DriveStep.stepNext, DriveStep.stepNext] (mkAction (some "Call") 0 [] false) =
      mkAction (some "Call") 0 [] false :=
  claim9_retries_zero_no_attempts _ _ rfl rfl rfl

/-- C8 (code bug): the source's `Event.create` accepts no subclass-matching
flag; whatever arguments are supplied, the Action it appends carries the
constructor default `check_exc_subclass = False`, so the matching mode
cannot be configured through the Event's Action-creation operation. -/
theorem claim8_event_create_no_subclass_flag :
    ∀ (e : Event) (name : Option String) (retries : Nat) (ignore : List ExcType),
      (eventCreate e name retries ignore).frames.getLast? =
        some (mkAction name retries ignore false) ∧
      (mkAction name retries ignore false).checkExcSubclass = false := by
  intro e name retries ignore
  exact ⟨by simp [eventCreate], rfl⟩

/-- C1 (counterexample): in a run with a configured hook and two Attempt
scope entries, the hook is invoked three times — once per attempt entry and
once more at the root's scope exit — not exactly once. -/
theorem claim1_counterexample :
    runC1.hookCount = 3 ∧ ¬(runC1.hookCount = 1) := by decide

/-- C1 (amended): any Attempt scope entry whose own guard flag is unset
invokes the configured hook once (whatever fired before), and the root's
scope exit invokes it once more whenever the root's own flag is still
unset; attempt entries never set the root's flag, so the hook fires once
per attempt plus once at root exit. -/
theorem claim1_hook_fires_per_attempt_and_at_exit :
    (∀ (tf : TimeFrame) (i j k t : Nat) (att : Attempt),
       getAttempt tf i j k = some att → att.rtCompleted = false → tf.rtSome = true →
       (attemptEnterAt tf i j k t).hookCount = tf.hookCount + 1 ∧
       (attemptEnterAt tf i j k t).rtCompleted = tf.rtCompleted) ∧
    (∀ (tf : TimeFrame) (t : Nat), tf.rtCompleted = false → tf.rtSome = true →
       ((tfExitAt tf t none).1).hookCount = tf.hookCount + 1) := by
  constructor
  · intro tf i j k t att hget hflag hsome
    simp [attemptEnterAt, hget, hflag, setAttempt, setAction, setEvent, triggerSync, hsome]
  · intro tf t hflag hsome
    simp [tfExitAt, hflag, triggerSync, hsome, tfEndCtx]

/-- A root state with a configured hook and one fresh attempt, used to
instantiate the amended C1. -/
def hookDemo : TimeFrame :=
  let tf := mkTimeFrame (some "R") true
  let tf := tfCreate tf (some "E")
  let tf := eventCreateAt tf 0 (some "A") 3 []
  (actionNextAt tf 0 0).1

/-- Witness for the amended C1 at a concrete input. -/
theorem claim1_hook_fires_per_attempt_and_at_exit_witness :
    (attemptEnterAt hookDemo 0 0 0 5).hookCount = hookDemo.hookCount + 1 ∧
    ((tfExitAt hookDemo 9 none).1).hookCount = hookDemo.hookCount + 1 :=
  ⟨(claim1_hook_fires_per_attempt_and_at_exit.1 hookDemo 0 0 0 5 (mkAttempt 0)
      (by decide) (by decide) (by decide)).1,
   claim1_hook_fires_per_attempt_and_at_exit.2 hookDemo 9 (by decide) (by decide)⟩

/-- C2 (counterexample): an Attempt exiting with an error that matches the
owning Action's ignore set is marked FATAL and annotated, but its exit
handler returns `False` — the triggering error is re-raised to the caller
rather than translated into a control signal. -/
theorem claim2_counterexample :
    runC2.2 = ExitOutcome.ret false ∧
    ¬(runC2.2 = ExitOutcome.ret true) ∧
    (getAttempt runC2.1 0 0 0).map (fun a => a.state) = some State.FATAL ∧
    (getAttempt runC2.1 0 0 0).map (fun a => a.addString) =
      some "Ignore retries by exception: TimeoutError" := by
  decide

/-- C4 (counterexample): in the root `Job` → event `Stage` → action `Call`
(retries = 2) scenario with both attempts raising generic errors, the
statuses all end FAILED but the traceback log holds 3 entries, not 2. -/
theorem claim4_counterexample :
    ¬((getAction runC4 0 0).map (fun a => a.state) = some State.FAILED ∧
      (getEvent runC4 0).map (fun e => e.state) = some State.FAILED ∧
      runC4.state = State.FAILED ∧
      runC4.tb.length = 2) := by
  decide

/-- C4 (amended): in that scenario the Action, Event and root all end
FAILED, and the traceback log holds exactly 3 entries — one per failed
attempt plus the record of the exhausted-retry signal caught by the
Action's scope. -/
theorem claim4_both_fail_scenario :
    (getAction runC4 0 0).map (fun a => a.state) = some State.FAILED ∧
    (getEvent runC4 0).map (fun e => e.state) = some State.FAILED ∧
    runC4.state = State.FAILED ∧
    runC4.tb.length = 3 := by
  decide

/-- C6 (counterexample): a container can be FAILED at end-time without all
of its children being FAILED/FATAL: in `runC6` the event ends FAILED
(through its failed action's upward propagation) while its first child is
SUCCESS. -/
theorem claim6_counterexample :
    (getEvent runC6 0).map (fun e => e.state) = some State.FAILED ∧
    (getEvent runC6 0).map (fun e => e.frames.map (fun a => a.state)) =
      some [State.SUCCESS, State.FAILED] ∧
    allFailedFatal [State.SUCCESS, State.FAILED] = false := by
  decide

/-- C6 (amended): at `end()`-time, a container with at least one child all
of whose statuses are FAILED/FATAL becomes FAILED (unless it is already
FATAL); otherwise, a status outside ISSUE/FAILED/FATAL becomes SUCCESS.
The converse of the first part does not hold: FAILED can also arrive by
earlier upward propagation. -/
theorem claim6_end_aggregation :
    ∀ (cs : List State) (s : State),
      (cs ≠ [] → allFailedFatal cs = true → s ≠ State.FATAL →
        endAgg cs s = State.FAILED) ∧
      (s ≠ State.ISSUE → s ≠ State.FAILED → s ≠ State.FATAL →
        ¬(cs ≠ [] ∧ allFailedFatal cs = true) → endAgg cs s = State.SUCCESS) := by
  intro cs s
  constructor
  · intro h1 h2 h3
    have hcond : (!cs.isEmpty && allFailedFatal cs) = true := by
      cases cs with
      | nil => exact absurd rfl h1
      | cons c cs' => simp [h2]
    rw [endAgg, if_pos hcond]
    cases s <;> first | exact absurd rfl h3 | decide
  · intro h1 h2 h3 h4
    have hcond : (!cs.isEmpty && allFailedFatal cs) = false := by
      cases cs with
      | nil => simp
      | cons c cs' =>
        cases haf : allFailedFatal (c :: cs') with
        | true => exact absurd ⟨by simp, haf⟩ h4
        | false => simp [haf]
    rw [endAgg, if_neg (by simp [hcond])]
    cases s <;>
      first
      | exact absurd rfl h1
      | exact absurd rfl h2
      | exact absurd rfl h3
      | decide

/-- Witness for the amended C6 at concrete inputs. -/
theorem claim6_end_aggregation_witness :
    endAgg [State.FAILED, State.FATAL] State.LOADING = State.FAILED ∧
    endAgg [State.SUCCESS] State.LOADING = State.SUCCESS :=
  ⟨(claim6_end_aggregation _ _).1 (by decide) (by decide) (by decide),
   (claim6_end_aggregation _ _).2 (by decide) (by decide) (by decide) (by decide)⟩

/-- C2 (amended): when an Attempt's scope exits with an error matching the
owning Action's ignore set, the attempt is set to FATAL with the match
recorded as an annotation and the Action is set to ISSUE; the exit never
returns `True`: with budget left it returns `False` (re-raising the
triggering error to the caller), and with the budget spent it raises the
exhaustion signal — either way the driver loop stops immediately. -/
theorem claim2_ignored_error_semantics :
    ∀ (a : Action) (k t : Nat) (mn : Option String) (e : ExcType) (att : Attempt),
      a.frames[k]? = some att →
      excMatches a.ignoreRetries a.checkExcSubclass e = true →
      (attemptExitCore a k mn t (some e)).1.frames[k]? =
        some { att with state := State.FATAL,
                        addString := att.addString ++ ignoreMsg e,
                        endT := some t } ∧
      (attemptExitCore a k mn t (some e)).1.state = stateSet a.state State.ISSUE ∧
      (if a.retries ≤ a.currRetries
       then (attemptExitCore a k mn t (some e)).2.2 = ExitOutcome.raised ExcVal.iterFailed
       else (attemptExitCore a k mn t (some e)).2.2 = ExitOutcome.ret false) := by
  intro a k t mn e att hk hm
  have hne := pyTraceback_ne_empty (ExcVal.user e)
  simp only [attemptExitCore, hm, if_true, attemptBaseExitK, attemptFailedK,
    withAttemptK, modN_getElem?, hk, Option.map_some, stateSet_FATAL,
    failedState, pyTraceback_ne_empty]
  by_cases hb : a.retries ≤ a.currRetries <;>
    simp [hb, hne, failedState, stateSet_FATAL, modN_getElem?, hk]

/-- An action with `TimeoutError` in its ignore set and one fresh attempt,
used to instantiate the amended C2. -/
def demoIgnoreAction : Action :=
  let base := mkAction (some "A") 3 [timeoutError] false
  { base with frames := [mkAttempt 0], currRetries := 1 }

/-- Witness for the amended C2 at a concrete input. -/
theorem claim2_ignored_error_semantics_witness :
    (attemptExitCore demoIgnoreAction 0 (some "R") 5 (some timeoutError)).1.frames[0]? =
      some { (mkAttempt 0) with
             state := State.FATAL,
             addString := (mkAttempt 0).addString ++ ignoreMsg timeoutError,
             endT := some 5 } ∧
    (attemptExitCore demoIgnoreAction 0 (some "R") 5 (some timeoutError)).1.state =
      stateSet demoIgnoreAction.state State.ISSUE ∧
    (if demoIgnoreAction.retries ≤ demoIgnoreAction.currRetries
     then (attemptExitCore demoIgnoreAction 0 (some "R") 5 (some timeoutError)).2.2 =
       ExitOutcome.raised ExcVal.iterFailed
     else (attemptExitCore demoIgnoreAction 0 (some "R") 5 (some timeoutError)).2.2 =
       ExitOutcome.ret false) :=
  claim2_ignored_error_semantics demoIgnoreAction 0 5 (some "R") timeoutError (mkAttempt 0)
    (by decide) (by decide)

/-- Invariant preservation for a single driver step on an action: the
budget field is untouched, attempts-made stays within the budget, and the
attempt list stays in sync with attempts-made. -/
theorem driveStep_preserves (st : DriveStep) (a : Action)
    (h1 : a.currRetries ≤ a.retries) (h2 : a.frames.length = a.currRetries) :
    (driveStep st a).retries = a.retries ∧
    (driveStep st a).currRetries ≤ a.retries ∧
    (driveStep st a).frames.length = (driveStep st a).currRetries := by
  cases st with
  | stepSet s =>
    simp only [driveStep, setLastState]
    cases hl : a.frames.getLast? with
    | none => exact ⟨rfl, h1, h2⟩
    | some last =>
      refine ⟨rfl, h1, ?_⟩
      have hpos := length_pos_of_getLast? _ _ hl
      simp only [List.length_append, List.length_dropLast, List.length_singleton]
      omega
  | stepNext =>
    simp only [driveStep, actionNext]
    by_cases hb : a.retries ≤ a.currRetries
    · simp only [if_pos hb]
      exact ⟨by trivial, h1, h2⟩
    · have hlt : a.currRetries < a.retries := Nat.not_le.mp hb
      simp only [if_neg hb]
      cases hl : a.frames.getLast? with
      | none =>
        refine ⟨by trivial, hlt, ?_⟩
        simp only [actionCreate, List.length_append, List.length_singleton, h2]
      | some last =>
        have hpos := length_pos_of_getLast? _ _ hl
        by_cases hs : (if last.state = State.LOADING
            then { last with state := stateSet last.state State.SUCCESS }
            else last).state = State.SUCCESS
        · simp only [if_pos hs]
          refine ⟨by trivial, h1, ?_⟩
          simp only [List.length_append, List.length_dropLast, List.length_singleton]
          omega
        · simp only [if_neg hs]
          refine ⟨by trivial, hlt, ?_⟩
          simp only [actionCreate, List.length_append, List.length_dropLast,
            List.length_singleton]
          omega

/-- C7 (confirmed): driven solely through the iteration protocol, an
Action's attempts-made never exceeds its retry budget and stays equal to
the number of Attempts produced; a previous Attempt with status SUCCESS
stops iteration without producing anything, and a previous still-LOADING
Attempt is forced to SUCCESS and likewise stops iteration. -/
theorem claim7_budget_and_success_stop :
    (∀ (l : List DriveStep) (a : Action),
       a.currRetries ≤ a.retries → a.frames.length = a.currRetries →
       (drive l a).retries = a.retries ∧
       (drive l a).currRetries ≤ a.retries ∧
       (drive l a).frames.length = (drive l a).currRetries) ∧
    (∀ (a : Action) (last : Attempt),
       a.frames.getLast? = some last → last.state = State.SUCCESS →
       actionNext a = (a, none)) ∧
    (∀ (a : Action) (last : Attempt),
       a.currRetries < a.retries →
       a.frames.getLast? = some last → last.state = State.LOADING →
       (actionNext a).2 = none ∧
       (actionNext a).1.frames.getLast? =
         some { last with state := stateSet last.state State.SUCCESS }) := by
  refine ⟨?_, ?_, ?_⟩
  · intro l
    induction l with
    | nil => intro a h1 h2; exact ⟨rfl, h1, h2⟩
    | cons st rest ih =>
      intro a h1 h2
      have hp := driveStep_preserves st a h1 h2
      have hrec := ih (driveStep st a) (hp.1 ▸ hp.2.1) hp.2.2
      show (drive rest (driveStep st a)).retries = a.retries ∧ _ ∧ _
      exact ⟨hrec.1.trans hp.1, hp.1 ▸ hrec.2.1, hrec.2.2⟩
  · intro a last hl hs
    unfold actionNext
    by_cases hb : a.retries ≤ a.currRetries
    · simp [hb]
    · rw [if_neg hb, hl]
      have hd := dropLast_append_last _ _ hl
      simp [hs, hd]
  · intro a last hlt hl hs
    have hb : ¬(a.retries ≤ a.currRetries) := Nat.not_le.mpr hlt
    unfold actionNext
    rw [if_neg hb, hl]
    simp only [hs, if_pos rfl]
    rw [if_pos (by simp; decide)]
    exact ⟨rfl, by simp [List.getLast?_concat]⟩

/-- A concrete drive of `Action(retries = 3)`: attempt #1 fails, attempt #2
succeeds, then the driver keeps asking — used to instantiate C7. -/
def demoDrive : List DriveStep :=
  [.stepNext, .stepSet .FAILED, .stepNext, .stepSet .SUCCESS, .stepNext, .stepNext]

def demoAction : Action := mkAction (some "A") 3 [] false

/-- Witness for C7: at most 3 attempts with `retries = 3`; attempt #2
succeeded, so only 2 attempts exist and no attempt #3 was produced. -/
theorem claim7_budget_and_success_stop_witness :
    (drive demoDrive demoAction).currRetries ≤ 3 ∧
    (drive demoDrive demoAction).frames.length = (drive demoDrive demoAction).currRetries ∧
    (drive demoDrive demoAction).frames.length = 2 :=
  ⟨(claim7_budget_and_success_stop.1 demoDrive demoAction (by decide) (by decide)).2.1,
   (claim7_budget_and_success_stop.1 demoDrive demoAction (by decide) (by decide)).2.2,
   by decide⟩

/-- C10 (confirmed): the depth-capped renderer tries caps 3, 2, 1 in that
order and returns the first rendering whose serialized length fits the
caller's budget; when the budget is below the length of the first report
line (the one-line summary), every rendering exceeds it and the failure
marker (`none`, the source's `False`) is returned. -/
theorem claim10_depth_capped_renderer :
    ∀ (tf : TimeFrame) (now limit : Nat),
      frameFormatDc tf now limit =
        ([3, 2, 1].map (fun lim => formatDc tf now lim)).find?
          (fun s => decide (s.length ≤ limit)) ∧
      (limit < (headerLine tf now).length → frameFormatDc tf now limit = none) := by
  intro tf now limit
  have hle : ∀ lim, (headerLine tf now).length ≤ (formatDc tf now lim).length := by
    intro lim
    simpa [formatDc] using joinLines_head_le (headerLine tf now) (recurDcTF tf now lim)
  constructor
  · by_cases h3 : (formatDc tf now 3).length ≤ limit
    · simp [frameFormatDc, frameFormatDcLoop, List.find?, h3]
    · by_cases h2 : (formatDc tf now 2).length ≤ limit
      · simp [frameFormatDc, frameFormatDcLoop, List.find?, h3, h2]
      · by_cases h1 : (formatDc tf now 1).length ≤ limit
        · simp [frameFormatDc, frameFormatDcLoop, List.find?, h3, h2, h1]
        · simp [frameFormatDc, frameFormatDcLoop, List.find?, h3, h2, h1]
  · intro hlim
    have n3 : ¬((formatDc tf now 3).length ≤ limit) := by have := hle 3; omega
    have n2 : ¬((formatDc tf now 2).length ≤ limit) := by have := hle 2; omega
    have n1 : ¬((formatDc tf now 1).length ≤ limit) := by have := hle 1; omega
    simp [frameFormatDc, frameFormatDcLoop, n3, n2, n1]

/-- Witness for C10: a fresh root whose one-line summary is 38 characters;
with budget 5 the renderer returns the failure marker. -/
theorem claim10_depth_capped_renderer_witness :
    5 < (headerLine (mkTimeFrame (some "t") false) 0).length ∧
    frameFormatDc (mkTimeFrame (some "t") false) 0 5 = none :=
  ⟨by decide,
   (claim10_depth_capped_renderer (mkTimeFrame (some "t") false) 0 5).2 (by decide)⟩

end Timeframe
